import Mathlib

/-!
Verification of the PGtoSnowflake type-mapping and export layer.

This file gives a shallow embedding, in Lean 4, of the per-engine
type mappers (`src/services/type-mapper.service.ts` for PostgreSQL,
`src/services/mysql-type-mapper.ts`, `src/services/mssql-type-mapper.ts`)
and of the adapter export/connection layer
(`src/services/adapters/mysql.adapter.ts`, `mssql.adapter.ts`), and proves
the specified properties about them.

Modelling conventions:
* TypeScript `string` is `String`, `number | null` is `Option Int`,
  `string | null` is `Option String`.
* JavaScript truthiness of a `number | null` value is `some n` with `n ≠ 0`;
  truthiness of a `string | null` value is `some s` with `s ≠ ""`.
* `toLowerCase`/`toUpperCase` are mapped ASCII-wise over the characters
  (the type names and defaults involved are ASCII).
* The regular expression test `/nextval\(/i.test(s)` is a case-insensitive
  substring check for `nextval(`.
* Template interpolation of a `number` renders like `toString : Int → String`.
-/

/-- One introspected source column (`SourceColumn` in
`src/types/source-engine.ts`; `PgColumn` in `src/types/postgres.ts` has the
identical field list, so one structure serves all three engines). -/
structure SourceColumn where
  schemaName : String
  tableName : String
  columnName : String
  ordinalPosition : Int
  columnDefault : Option String
  isNullable : Bool
  dataType : String
  udtName : String
  characterMaximumLength : Option Int
  numericPrecision : Option Int
  numericScale : Option Int
  isIdentity : Bool
  identityGeneration : Option String
deriving DecidableEq, Repr

/-- Result of a type-mapping rule (`TypeMappingResult` in the mappers). -/
structure TypeMappingResult where
  snowflakeType : String
  comment : Option String
deriving DecidableEq, Repr

/-- A mapped target column (`SnowflakeColumn` in `src/types/snowflake.ts`). -/
structure SnowflakeColumn where
  name : String
  type : String
  nullable : Bool
  defaultValue : Option String
  isIdentity : Bool
  identitySeed : Int
  identityIncrement : Int
  comment : Option String
deriving DecidableEq, Repr

/-- ASCII `toLowerCase`, character by character. -/
def lowerStr (s : String) : String := ⟨s.data.map Char.toLower⟩

/-- ASCII `toUpperCase`, character by character. -/
def upperStr (s : String) : String := ⟨s.data.map Char.toUpper⟩

/-- Substring containment on character lists (used to model `/pat/.test(s)`
for a literal pattern). -/
def hasSubstring (s pat : List Char) : Bool :=
  match s with
  | [] => pat.isEmpty
  | _ :: rest => pat.isPrefixOf s || hasSubstring rest pat

/-- JavaScript `String.prototype.trim` (whitespace stripped at both ends). -/
def jsTrim (s : String) : String :=
  ⟨((s.data.dropWhile Char.isWhitespace).reverse.dropWhile Char.isWhitespace).reverse⟩

/-- The part of a string before the first `::`, as in `s.split('::')[0]`. -/
def beforeColons : List Char → List Char
  | ':' :: ':' :: _ => []
  | c :: rest => c :: beforeColons rest
  | [] => []

namespace Pg

/-- The PostgreSQL literal lookup table `SIMPLE_TYPE_MAP` of
`type-mapper.service.ts`, as a partial function. -/
def SIMPLE_TYPE_MAP : String → Option String
  | "int2" => some "SMALLINT"
  | "int4" => some "INTEGER"
  | "int8" => some "BIGINT"
  | "smallint" => some "SMALLINT"
  | "integer" => some "INTEGER"
  | "bigint" => some "BIGINT"
  | "float4" => some "FLOAT"
  | "float8" => some "DOUBLE"
  | "real" => some "FLOAT"
  | "double precision" => some "DOUBLE"
  | "money" => some "NUMBER(19,4)"
  | "bool" => some "BOOLEAN"
  | "boolean" => some "BOOLEAN"
  | "text" => some "VARCHAR"
  | "name" => some "VARCHAR"
  | "char" => some "CHAR"
  | "bpchar" => some "CHAR"
  | "date" => some "DATE"
  | "time" => some "TIME"
  | "timetz" => some "TIME"
  | "timestamp" => some "TIMESTAMP_NTZ"
  | "timestamptz" => some "TIMESTAMP_TZ"
  | "json" => some "VARIANT"
  | "jsonb" => some "VARIANT"
  | "bytea" => some "BINARY"
  | "uuid" => some "VARCHAR(36)"
  | "inet" => some "VARCHAR(45)"
  | "cidr" => some "VARCHAR(49)"
  | "macaddr" => some "VARCHAR(17)"
  | "macaddr8" => some "VARCHAR(23)"
  | "point" => some "VARCHAR"
  | "line" => some "VARCHAR"
  | "lseg" => some "VARCHAR"
  | "box" => some "VARCHAR"
  | "path" => some "VARCHAR"
  | "polygon" => some "VARCHAR"
  | "circle" => some "VARCHAR"
  | "xml" => some "VARCHAR"
  | "interval" => some "VARCHAR"
  | "tsvector" => some "VARCHAR"
  | "tsquery" => some "VARCHAR"
  | "oid" => some "INTEGER"
  | "regclass" => some "VARCHAR"
  | "regtype" => some "VARCHAR"
  | _ => none

/-- `mapType` of `type-mapper.service.ts`: PostgreSQL column → target type.
The `if (column.characterMaximumLength)` truthiness tests are rendered as a
match on the option with a zero test. -/
def mapType (column : SourceColumn) : TypeMappingResult :=
  let udtName := column.udtName
  let dataType := column.dataType
  if udtName.data.head? = some '_' then
    let baseType : String := ⟨udtName.data.drop 1⟩
    { snowflakeType := "ARRAY"
      comment := some ("PostgreSQL array type: " ++ baseType ++ "[]" ++
        (match SIMPLE_TYPE_MAP baseType with
         | some _ => ""
         | none => " (base type " ++ baseType ++ " not directly mapped)")) }
  else if udtName = "numeric" ∨ dataType = "numeric" then
    match column.numericPrecision, column.numericScale with
    | some p, some s =>
        ⟨"NUMBER(" ++ toString p ++ "," ++ toString s ++ ")", none⟩
    | some p, none => ⟨"NUMBER(" ++ toString p ++ ")", none⟩
    | none, _ => ⟨"NUMBER(38,0)", none⟩
  else if udtName = "varchar" ∨ dataType = "character varying" then
    match column.characterMaximumLength with
    | some n => if n = 0 then ⟨"VARCHAR", none⟩
                else ⟨"VARCHAR(" ++ toString n ++ ")", none⟩
    | none => ⟨"VARCHAR", none⟩
  else if udtName = "bpchar" ∨ udtName = "char" ∨ dataType = "character" then
    match column.characterMaximumLength with
    | some n => if n = 0 then ⟨"CHAR(1)", none⟩
                else ⟨"CHAR(" ++ toString n ++ ")", none⟩
    | none => ⟨"CHAR(1)", none⟩
  else
    match (SIMPLE_TYPE_MAP udtName).orElse (fun _ => SIMPLE_TYPE_MAP dataType) with
    | some mapped =>
        ⟨mapped,
         if udtName = "interval"
         then some "PostgreSQL INTERVAL has no direct Snowflake equivalent"
         else none⟩
    | none =>
        if dataType = "USER-DEFINED" then
          ⟨"VARCHAR", some ("PostgreSQL user-defined type: " ++ udtName)⟩
        else
          ⟨"VARCHAR",
           some ("Unmapped PostgreSQL type: " ++ udtName ++ " (" ++ dataType ++ ")")⟩

/-- `isSerialColumn`: identity flag, or a truthy default containing
`nextval(` (case-insensitively). -/
def isSerialColumn (column : SourceColumn) : Bool :=
  column.isIdentity ||
    (match column.columnDefault with
     | some d => !(d == "") && hasSubstring (lowerStr d).data "nextval(".data
     | none => false)

/-- `getSerialBaseType`: integer width for a serial column. -/
def getSerialBaseType (udtName : String) : String :=
  if udtName = "int2" then "SMALLINT"
  else if udtName = "int4" then "INTEGER"
  else if udtName = "int8" then "BIGINT"
  else "INTEGER"

/-- Character class of the cast-stripping regular expression
`::[a-zA-Z_ ]+(\[\])?`. -/
def isCastChar (c : Char) : Bool :=
  (('a' ≤ c && c ≤ 'z') || ('A' ≤ c && c ≤ 'Z') || c = '_' || c = ' ')

/-- After the greedy `[a-zA-Z_ ]+` run, the optional `[]` of the cast
pattern is consumed. -/
def stripTail (l : List Char) : List Char :=
  match l.dropWhile isCastChar with
  | '[' :: ']' :: r => r
  | r => r

/-- Global replacement `replace(/::[a-zA-Z_ ]+(\[\])?/g, '')`: scan left to
right; at `::` followed by at least one cast character, drop the greedy
match and continue after it; otherwise keep the character. -/
def stripCasts (l : List Char) : List Char :=
  match l with
  | ':' :: ':' :: c2 :: r2 =>
    if isCastChar c2 then stripCasts (stripTail (c2 :: r2))
    else ':' :: stripCasts (':' :: c2 :: r2)
  | c :: rest => c :: stripCasts rest
  | [] => []
termination_by l.length
decreasing_by
  · have h1 : ∀ (l : List Char), (l.dropWhile isCastChar).length ≤ l.length := by
      intro l
      induction l with
      | nil => simp
      | cons a t ih =>
        by_cases h : isCastChar a <;> simp [List.dropWhile_cons, h] <;> omega
    have h1 := h1 (c2 :: r2)
    simp only [stripTail]
    split
    · rename_i heq
      have h2 := congrArg List.length heq
      simp only [List.length_cons] at h1 h2 ⊢
      omega
    · simp only [List.length_cons] at h1 ⊢
      omega
  · simp
  · simp

/-- `mapDefault` of `type-mapper.service.ts`: PostgreSQL default-expression
translation. -/
def mapDefault (pgDefault : String) (udtName : String) : Option String :=
  if hasSubstring (lowerStr pgDefault).data "nextval(".data then none
  else if pgDefault = "true" ∨ pgDefault = "false" then some (upperStr pgDefault)
  else if pgDefault = "now()" ∨ pgDefault = "CURRENT_TIMESTAMP" then
    some "CURRENT_TIMESTAMP()"
  else if pgDefault = "CURRENT_DATE" then some "CURRENT_DATE()"
  else
    let stripped := jsTrim ⟨stripCasts pgDefault.data⟩
    if stripped = "" then none else some stripped

/-- `mapColumn` of `type-mapper.service.ts`. The unused `udtName` argument of
`mapDefault` is passed exactly as in the source. -/
def mapColumn (column : SourceColumn) : SnowflakeColumn :=
  let isSerial := isSerialColumn column
  let pair : String × Option String :=
    if isSerial then
      (getSerialBaseType column.udtName,
       match column.columnDefault with
       | some d =>
         if d = "" then none
         else some ("Auto-increment (was: " ++ jsTrim ⟨beforeColons d.data⟩ ++ ")")
       | none => none)
    else
      let r := mapType column
      (r.snowflakeType, r.comment)
  let defaultValue : Option String :=
    match column.columnDefault with
    | some d =>
      if d ≠ "" ∧ isSerial = false then mapDefault d column.udtName else none
    | none => none
  { name := column.columnName
    type := pair.1
    nullable := column.isNullable
    defaultValue := defaultValue
    isIdentity := isSerial
    identitySeed := 1
    identityIncrement := 1
    comment := pair.2 }

end Pg

namespace MySql

/-- The MySQL literal lookup table `SIMPLE_TYPE_MAP` of
`mysql-type-mapper.ts`. -/
def SIMPLE_TYPE_MAP : String → Option String
  | "smallint" => some "SMALLINT"
  | "mediumint" => some "INTEGER"
  | "int" => some "INTEGER"
  | "integer" => some "INTEGER"
  | "bigint" => some "BIGINT"
  | "float" => some "FLOAT"
  | "double" => some "DOUBLE"
  | "real" => some "DOUBLE"
  | "boolean" => some "BOOLEAN"
  | "bool" => some "BOOLEAN"
  | "tinytext" => some "VARCHAR"
  | "text" => some "VARCHAR"
  | "mediumtext" => some "VARCHAR"
  | "longtext" => some "VARCHAR"
  | "date" => some "DATE"
  | "time" => some "TIME"
  | "year" => some "INTEGER"
  | "datetime" => some "TIMESTAMP_NTZ"
  | "timestamp" => some "TIMESTAMP_TZ"
  | "json" => some "VARIANT"
  | "tinyblob" => some "BINARY"
  | "blob" => some "BINARY"
  | "mediumblob" => some "BINARY"
  | "longblob" => some "BINARY"
  | "binary" => some "BINARY"
  | "varbinary" => some "BINARY"
  | "geometry" => some "VARCHAR"
  | "point" => some "VARCHAR"
  | "linestring" => some "VARCHAR"
  | "polygon" => some "VARCHAR"
  | "multipoint" => some "VARCHAR"
  | "multilinestring" => some "VARCHAR"
  | "multipolygon" => some "VARCHAR"
  | "geometrycollection" => some "VARCHAR"
  | "bit" => some "BOOLEAN"
  | _ => none

/-- `isTinyint1` of `mysql-type-mapper.ts`: the tinyint(1)-as-boolean
convention. Note that the structural branch compares the raw (unlowered)
`dataType`, as the source does. -/
def isTinyint1 (column : SourceColumn) : Bool :=
  let colType := lowerStr column.udtName
  colType == "tinyint(1)" ||
    (column.dataType == "tinyint" && column.numericPrecision == some 3 &&
     column.numericScale == some 0 && column.characterMaximumLength == none)

/-- `mapType` of `mysql-type-mapper.ts`. -/
def mapType (column : SourceColumn) : TypeMappingResult :=
  let dataType := lowerStr column.dataType
  let colType := lowerStr column.udtName
  if dataType = "tinyint" then
    if isTinyint1 column then ⟨"BOOLEAN", none⟩ else ⟨"SMALLINT", none⟩
  else if dataType = "enum" then ⟨"VARCHAR", some ("MySQL ENUM type: " ++ colType)⟩
  else if dataType = "set" then ⟨"VARCHAR", some ("MySQL SET type: " ++ colType)⟩
  else if dataType = "decimal" ∨ dataType = "numeric" then
    match column.numericPrecision, column.numericScale with
    | some p, some s =>
        ⟨"NUMBER(" ++ toString p ++ "," ++ toString s ++ ")", none⟩
    | some p, none => ⟨"NUMBER(" ++ toString p ++ ")", none⟩
    | none, _ => ⟨"NUMBER(10,0)", none⟩
  else if dataType = "varchar" then
    match column.characterMaximumLength with
    | some n => if n = 0 then ⟨"VARCHAR", none⟩
                else ⟨"VARCHAR(" ++ toString n ++ ")", none⟩
    | none => ⟨"VARCHAR", none⟩
  else if dataType = "char" then
    match column.characterMaximumLength with
    | some n => if n = 0 then ⟨"CHAR(1)", none⟩
                else ⟨"CHAR(" ++ toString n ++ ")", none⟩
    | none => ⟨"CHAR(1)", none⟩
  else
    match SIMPLE_TYPE_MAP dataType with
    | some mapped => ⟨mapped, none⟩
    | none =>
        ⟨"VARCHAR",
         some ("Unmapped MySQL type: " ++ colType ++ " (" ++ dataType ++ ")")⟩

/-- `mapDefault` of `mysql-type-mapper.ts`. -/
def mapDefault (mysqlDefault : String) (dataType : String) : Option String :=
  if mysqlDefault = "CURRENT_TIMESTAMP" ∨ mysqlDefault = "current_timestamp()" then
    some "CURRENT_TIMESTAMP()"
  else if dataType = "tinyint" ∧ mysqlDefault = "1" then some "TRUE"
  else if dataType = "tinyint" ∧ mysqlDefault = "0" then some "FALSE"
  else if mysqlDefault = "NULL" ∨ mysqlDefault = "null" then none
  else some mysqlDefault

/-- `mapMysqlColumn` of `mysql-type-mapper.ts` (the source's
`isAutoIncrement ? snowflakeType : snowflakeType` picks the same type either
way, so the type is the `mapType` result unconditionally). -/
def mapMysqlColumn (column : SourceColumn) : SnowflakeColumn :=
  let isAutoIncrement := column.isIdentity
  let r := mapType column
  let defaultValue : Option String :=
    match column.columnDefault with
    | some d =>
      if d ≠ "" ∧ isAutoIncrement = false then mapDefault d column.dataType
      else none
    | none => none
  { name := column.columnName
    type := r.snowflakeType
    nullable := column.isNullable
    defaultValue := defaultValue
    isIdentity := isAutoIncrement
    identitySeed := 1
    identityIncrement := 1
    comment := r.comment }

end MySql

namespace Mssql

/-- The SQL Server literal lookup table `SIMPLE_TYPE_MAP` of
`mssql-type-mapper.ts`. -/
def SIMPLE_TYPE_MAP : String → Option String
  | "bit" => some "BOOLEAN"
  | "tinyint" => some "SMALLINT"
  | "smallint" => some "SMALLINT"
  | "int" => some "INTEGER"
  | "bigint" => some "BIGINT"
  | "float" => some "FLOAT"
  | "real" => some "FLOAT"
  | "money" => some "NUMBER(19,4)"
  | "smallmoney" => some "NUMBER(10,4)"
  | "date" => some "DATE"
  | "time" => some "TIME"
  | "datetime" => some "TIMESTAMP_NTZ"
  | "datetime2" => some "TIMESTAMP_NTZ"
  | "smalldatetime" => some "TIMESTAMP_NTZ"
  | "datetimeoffset" => some "TIMESTAMP_TZ"
  | "text" => some "VARCHAR"
  | "ntext" => some "VARCHAR"
  | "image" => some "BINARY"
  | "uniqueidentifier" => some "VARCHAR(36)"
  | "xml" => some "VARCHAR"
  | "sql_variant" => some "VARIANT"
  | "hierarchyid" => some "VARCHAR"
  | "geography" => some "VARCHAR"
  | "geometry" => some "VARCHAR"
  | "timestamp" => some "BINARY(8)"
  | "rowversion" => some "BINARY(8)"
  | _ => none

/-- `mapType` of `mssql-type-mapper.ts`. The `characterMaximumLength === -1`
sentinel is checked before the truthiness test, exactly as in the source. -/
def mapType (column : SourceColumn) : TypeMappingResult :=
  let dataType := lowerStr column.dataType
  if dataType = "decimal" ∨ dataType = "numeric" then
    match column.numericPrecision, column.numericScale with
    | some p, some s =>
        ⟨"NUMBER(" ++ toString p ++ "," ++ toString s ++ ")", none⟩
    | some p, none => ⟨"NUMBER(" ++ toString p ++ ")", none⟩
    | none, _ => ⟨"NUMBER(18,0)", none⟩
  else if dataType = "varchar" ∨ dataType = "nvarchar" then
    match column.characterMaximumLength with
    | some n =>
      if n = -1 then ⟨"VARCHAR", none⟩
      else if n = 0 then ⟨"VARCHAR", none⟩
      else ⟨"VARCHAR(" ++ toString n ++ ")", none⟩
    | none => ⟨"VARCHAR", none⟩
  else if dataType = "char" ∨ dataType = "nchar" then
    match column.characterMaximumLength with
    | some n => if n = 0 then ⟨"CHAR(1)", none⟩
                else ⟨"CHAR(" ++ toString n ++ ")", none⟩
    | none => ⟨"CHAR(1)", none⟩
  else if dataType = "binary" ∨ dataType = "varbinary" then
    match column.characterMaximumLength with
    | some n =>
      if n = -1 then ⟨"BINARY", none⟩
      else if n = 0 then ⟨"BINARY", none⟩
      else ⟨"BINARY(" ++ toString n ++ ")", none⟩
    | none => ⟨"BINARY", none⟩
  else
    match SIMPLE_TYPE_MAP dataType with
    | some mapped => ⟨mapped, none⟩
    | none => ⟨"VARCHAR", some ("Unmapped MSSQL type: " ++ dataType)⟩

/-- Outer-parenthesis peeling of `mapDefault`
(`while (cleaned.startsWith('(') && cleaned.endsWith(')'))`). -/
def peelParens (l : List Char) : List Char :=
  if h : l.head? = some '(' ∧ l.getLast? = some ')' then
    peelParens ((l.drop 1).dropLast)
  else l
termination_by l.length
decreasing_by
  cases l with
  | nil => simp at h
  | cons c r => simp [List.length_dropLast]; omega

/-- `mapDefault` of `mssql-type-mapper.ts`. -/
def mapDefault (mssqlDefault : String) : Option String :=
  let cleaned : String := ⟨peelParens mssqlDefault.data⟩
  if lowerStr cleaned = "getdate()" ∨ lowerStr cleaned = "sysdatetime()" then
    some "CURRENT_TIMESTAMP()"
  else if lowerStr cleaned = "getutcdate()" ∨ lowerStr cleaned = "sysutcdatetime()" then
    some "CURRENT_TIMESTAMP()"
  else if lowerStr cleaned = "sysdatetimeoffset()" then
    some "CURRENT_TIMESTAMP()"
  else if lowerStr cleaned = "newid()" then none
  else if cleaned = "" then none
  else some cleaned

/-- JavaScript `parseInt(s, 10)`: skip leading whitespace, optional sign, a
run of decimal digits; `none` models `NaN`. -/
def parseIntJS (s : String) : Option Int :=
  let l := s.data.dropWhile Char.isWhitespace
  let signAndRest : Int × List Char :=
    match l with
    | '-' :: r => (-1, r)
    | '+' :: r => (1, r)
    | _ => (1, l)
  let ds := signAndRest.2.takeWhile Char.isDigit
  if ds = [] then none
  else some (signAndRest.1 *
    Int.ofNat (ds.foldl (fun acc c => acc * 10 + (c.toNat - 48)) 0))

/-- The source's `parseInt(x, 10) || 1`: both `NaN` and `0` fall back to 1. -/
def jsParseIntOr1 (s : String) : Int :=
  match parseIntJS s with
  | some v => if v = 0 then 1 else v
  | none => 1

/-- `mapMssqlColumn` of `mssql-type-mapper.ts`. -/
def mapMssqlColumn (column : SourceColumn) : SnowflakeColumn :=
  let isIdentityCol := column.isIdentity
  let r := mapType column
  let seedInc : Int × Int :=
    match column.identityGeneration with
    | some g =>
      if isIdentityCol = true ∧ g ≠ "" then
        match g.splitOn "," with
        | [a, b] => (jsParseIntOr1 a, jsParseIntOr1 b)
        | _ => (1, 1)
      else (1, 1)
    | none => (1, 1)
  let defaultValue : Option String :=
    match column.columnDefault with
    | some d =>
      if d ≠ "" ∧ isIdentityCol = false then mapDefault d else none
    | none => none
  { name := column.columnName
    type := r.snowflakeType
    nullable := column.isNullable
    defaultValue := defaultValue
    isIdentity := isIdentityCol
    identitySeed := seedInc.1
    identityIncrement := seedInc.2
    comment := r.comment }

end Mssql

/-- A table selected for export (`{ schemaName, tableName }` entries of the
`tables` argument of `exportTables`). -/
structure TableRef where
  schemaName : String
  tableName : String
deriving DecidableEq, Repr

/-- `ExportResult` of `src/types/export.ts`. `status` is `"success"` or
`"error"`; the optional `error` field is `none` when absent. -/
structure ExportResult where
  schemaName : String
  tableName : String
  status : String
  rowCount : Nat
  duration : Nat
  filePath : String
  fileSize : Nat
  error : Option String
deriving DecidableEq, Repr

/-- One `onProgress(name, index, total)` invocation. -/
structure ProgressEvent where
  name : String
  index : Nat
  total : Nat
deriving DecidableEq, Repr

/-- Measurements of one successful per-table export (row count, elapsed ms,
and output file size, as gathered by the export body). -/
structure TableOutcome where
  rowCount : Nat
  duration : Nat
  fileSize : Nat
deriving DecidableEq, Repr

/-- `path.join(outputDir, name)` as used by both adapters (modelled as
`/`-separated concatenation; the `.replace(/\\/g, '/')` step is the identity
on such paths). -/
def joinPath (dir name : String) : String := dir ++ "/" ++ name

/-- The per-table output file `path.join(outputDir,
schemaName.tableName.format)`. -/
def outputFileFor (outputDir format : String) (t : TableRef) : String :=
  joinPath outputDir (t.schemaName ++ "." ++ t.tableName ++ "." ++ format)

/-- The display name `schemaName.tableName` passed to `onProgress`. -/
def displayName (t : TableRef) : String := t.schemaName ++ "." ++ t.tableName

namespace MySqlAdapter

/-- Environment abstracting the I/O of `MysqlAdapter.exportTables`: for each
table, the DuckDB attach/copy/count pipeline either yields measurements or
raises with a message; `failDuration` is the elapsed time measured when it
raises. -/
structure ExportEnv where
  run : TableRef → Except String TableOutcome
  failDuration : TableRef → Nat

/-- The body of one iteration of the `for` loop of
`MysqlAdapter.exportTables`: the try block pushes a success entry built from
the measurements, the catch block pushes an error entry with `rowCount: 0`,
`fileSize: 0` and the captured message. -/
def exportOne (env : ExportEnv) (format outputDir : String) (t : TableRef) :
    ExportResult :=
  let outputFile := outputFileFor outputDir format t
  match env.run t with
  | .ok o =>
    { schemaName := t.schemaName, tableName := t.tableName, status := "success"
      rowCount := o.rowCount, duration := o.duration, filePath := outputFile
      fileSize := o.fileSize, error := none }
  | .error msg =>
    { schemaName := t.schemaName, tableName := t.tableName, status := "error"
      rowCount := 0, duration := env.failDuration t, filePath := outputFile
      fileSize := 0, error := some msg }

/-- The sequential `for (let i = 0; ...)` loop: before each table `onProgress`
fires with the display name, the zero-based index and the total; then the
table's entry is appended. Returns the result list and the progress events,
both in loop order. -/
def exportLoop (body : TableRef → ExportResult) (total : Nat) :
    List TableRef → Nat → List ExportResult × List ProgressEvent
  | [], _ => ([], [])
  | t :: rest, i =>
    let tail := exportLoop body total rest (i + 1)
    (body t :: tail.1, ⟨displayName t, i, total⟩ :: tail.2)

/-- `MysqlAdapter.exportTables`: every table is processed independently by
`exportOne`; no failure of one table's pipeline escapes the loop. -/
def exportTables (env : ExportEnv) (tables : List TableRef)
    (format outputDir : String) : List ExportResult × List ProgressEvent :=
  exportLoop (exportOne env format outputDir) tables.length tables 0

end MySqlAdapter

namespace MssqlAdapter

/-- Environment abstracting the I/O of `MssqlAdapter.exportTables`: the
dedicated export-pool connection attempt, then per-table query/write
pipelines as in `MySqlAdapter.ExportEnv`. -/
structure ExportEnv where
  connectResult : Except String Unit
  run : TableRef → Except String TableOutcome
  failDuration : TableRef → Nat

/-- One iteration of the per-table loop of `MssqlAdapter.exportTables` (both
the CSV and the Parquet branch append a success entry from the measurements;
the catch block appends the error entry). -/
def exportOne (env : ExportEnv) (format outputDir : String) (t : TableRef) :
    ExportResult :=
  let outputFile := outputFileFor outputDir format t
  match env.run t with
  | .ok o =>
    { schemaName := t.schemaName, tableName := t.tableName, status := "success"
      rowCount := o.rowCount, duration := o.duration, filePath := outputFile
      fileSize := o.fileSize, error := none }
  | .error msg =>
    { schemaName := t.schemaName, tableName := t.tableName, status := "error"
      rowCount := 0, duration := env.failDuration t, filePath := outputFile
      fileSize := 0, error := some msg }

/-- `MssqlAdapter.exportTables`: when the dedicated export connection cannot
be established, one error entry per requested table (duration 0, the
connection error's message) is returned and the loop — and with it every
`onProgress` call — is skipped; otherwise the sequential loop runs as in the
MySQL adapter. -/
def exportTables (env : ExportEnv) (tables : List TableRef)
    (format outputDir : String) : List ExportResult × List ProgressEvent :=
  match env.connectResult with
  | .error msg =>
    (tables.map (fun t =>
      { schemaName := t.schemaName, tableName := t.tableName, status := "error"
        rowCount := 0, duration := 0, filePath := outputFileFor outputDir format t
        fileSize := 0, error := some msg }), [])
  | .ok _ =>
    MySqlAdapter.exportLoop (exportOne env format outputDir) tables.length tables 0

end MssqlAdapter

/-- The module-level mutable slot `let connection: MysqlConnection | null =
null` of `mysql.adapter.ts` (respectively `let pool: MssqlConnectionPool |
null = null` of `mssql.adapter.ts`): one slot per engine module, shared by
every adapter instance of that engine. Live handles are identified by a
number. -/
structure ModuleConnState where
  connection : Option Nat
deriving DecidableEq, Repr

/-- An adapter class instance (`new MysqlAdapter()` / `new MssqlAdapter()`).
The class declares no per-instance connection field — only readonly
engine constants — so an instance is just its identity. -/
structure AdapterInstance where
  instanceId : Nat
deriving DecidableEq, Repr

/-- The module state before any `connect`. -/
def initialConnState : ModuleConnState := { connection := none }

/-- A successful `connect` called on an instance: the new handle is written
to the module-level slot (`connection = await createConnection(config)` /
`pool = await createPool(config)`), whichever instance made the call. -/
def adapterConnect (_inst : AdapterInstance) (_s : ModuleConnState)
    (newConn : Nat) : ModuleConnState :=
  { connection := some newConn }

/-- `disconnect` called on an instance: the module-level slot is cleared
(`connection = null` / `pool = null`) when set, and left alone otherwise. -/
def adapterDisconnect (_inst : AdapterInstance) (s : ModuleConnState) :
    ModuleConnState :=
  match s.connection with
  | some _ => { connection := none }
  | none => s

/-- The connection an instance observes: `getConnection()` / `getPool()`
read the module-level slot, regardless of the instance. -/
def storedConnection (_inst : AdapterInstance) (s : ModuleConnState) :
    Option Nat :=
  s.connection

/-- A baseline concrete column used to build the concrete instances that the
witness theorems evaluate the mappers on. -/
def baseColumn : SourceColumn where
  schemaName := "public"
  tableName := "widgets"
  columnName := "c1"
  ordinalPosition := 1
  columnDefault := none
  isNullable := true
  dataType := "text"
  udtName := "text"
  characterMaximumLength := none
  numericPrecision := none
  numericScale := none
  isIdentity := false
  identityGeneration := none

/-- The garbage-typed column used to witness the unknown-type fallback. -/
def garbageColumn : SourceColumn :=
  { baseColumn with dataType := "frobnicate", udtName := "frobtype" }

/-- A PostgreSQL serial column (identity via a `nextval` default). -/
def pgSerialColumn : SourceColumn :=
  { baseColumn with
    dataType := "integer", udtName := "int4",
    columnDefault := some "nextval('x_id_seq'::regclass)" }

/-- A MySQL auto-increment column carrying a raw default. -/
def mysqlAutoIncColumn : SourceColumn :=
  { baseColumn with
    dataType := "int", udtName := "int(11)",
    isIdentity := true, columnDefault := some "42" }

/-- A SQL Server identity column carrying a raw default. -/
def mssqlIdentityColumn : SourceColumn :=
  { baseColumn with
    dataType := "bigint", udtName := "bigint",
    isIdentity := true, identityGeneration := some "5,2",
    columnDefault := some "((0))" }

/-! ### Properties -/

/-- C2: Identity suppresses default — for all three engines, a column whose
mapped output has `isIdentity = true` has `defaultValue = none`, whatever raw
default string was supplied. -/
theorem identity_suppresses_default (c : SourceColumn) :
    ((Pg.mapColumn c).isIdentity = true → (Pg.mapColumn c).defaultValue = none) ∧
    ((MySql.mapMysqlColumn c).isIdentity = true →
      (MySql.mapMysqlColumn c).defaultValue = none) ∧
    ((Mssql.mapMssqlColumn c).isIdentity = true →
      (Mssql.mapMssqlColumn c).defaultValue = none) := by
  refine ⟨?_, ?_, ?_⟩
  · intro h
    simp only [Pg.mapColumn] at h ⊢
    cases hd : c.columnDefault <;> simp [hd, h]
  · intro h
    simp only [MySql.mapMysqlColumn] at h ⊢
    cases hd : c.columnDefault <;> simp [hd, h]
  · intro h
    simp only [Mssql.mapMssqlColumn] at h ⊢
    cases hd : c.columnDefault <;> simp [hd, h]

/-- C2 witness: the invariant applied to concrete identity columns of each
engine (each carrying a raw default string). -/
theorem identity_suppresses_default_witness :
    (Pg.mapColumn pgSerialColumn).defaultValue = none ∧
    (MySql.mapMysqlColumn mysqlAutoIncColumn).defaultValue = none ∧
    (Mssql.mapMssqlColumn mssqlIdentityColumn).defaultValue = none :=
  ⟨(identity_suppresses_default pgSerialColumn).1 (by decide),
   (identity_suppresses_default mysqlAutoIncColumn).2.1 (by decide),
   (identity_suppresses_default mssqlIdentityColumn).2.2 (by decide)⟩

/-- C1: Mapper totality — each engine's `mapColumn` is a total function (it
is defined for every `SourceColumn`, garbage type names included), and on the
unknown-type path — a column matching none of the engine's rules — it returns
the unparameterized fallback `"VARCHAR"` together with a non-null comment
naming the unmapped source type. -/
theorem mapper_totality_unknown_fallback (c : SourceColumn) :
    (Pg.isSerialColumn c = false ∧
     c.udtName.data.head? ≠ some '_' ∧
     c.udtName ≠ "numeric" ∧ c.dataType ≠ "numeric" ∧
     c.udtName ≠ "varchar" ∧ c.dataType ≠ "character varying" ∧
     c.udtName ≠ "bpchar" ∧ c.udtName ≠ "char" ∧ c.dataType ≠ "character" ∧
     Pg.SIMPLE_TYPE_MAP c.udtName = none ∧ Pg.SIMPLE_TYPE_MAP c.dataType = none ∧
     c.dataType ≠ "USER-DEFINED" →
      (Pg.mapColumn c).type = "VARCHAR" ∧
      (Pg.mapColumn c).comment =
        some ("Unmapped PostgreSQL type: " ++ c.udtName ++ " (" ++ c.dataType ++ ")")) ∧
    (lowerStr c.dataType ≠ "tinyint" ∧ lowerStr c.dataType ≠ "enum" ∧
     lowerStr c.dataType ≠ "set" ∧ lowerStr c.dataType ≠ "decimal" ∧
     lowerStr c.dataType ≠ "numeric" ∧ lowerStr c.dataType ≠ "varchar" ∧
     lowerStr c.dataType ≠ "char" ∧
     MySql.SIMPLE_TYPE_MAP (lowerStr c.dataType) = none →
      (MySql.mapMysqlColumn c).type = "VARCHAR" ∧
      (MySql.mapMysqlColumn c).comment =
        some ("Unmapped MySQL type: " ++ lowerStr c.udtName ++
          " (" ++ lowerStr c.dataType ++ ")")) ∧
    (lowerStr c.dataType ≠ "decimal" ∧ lowerStr c.dataType ≠ "numeric" ∧
     lowerStr c.dataType ≠ "varchar" ∧ lowerStr c.dataType ≠ "nvarchar" ∧
     lowerStr c.dataType ≠ "char" ∧ lowerStr c.dataType ≠ "nchar" ∧
     lowerStr c.dataType ≠ "binary" ∧ lowerStr c.dataType ≠ "varbinary" ∧
     Mssql.SIMPLE_TYPE_MAP (lowerStr c.dataType) = none →
      (Mssql.mapMssqlColumn c).type = "VARCHAR" ∧
      (Mssql.mapMssqlColumn c).comment =
        some ("Unmapped MSSQL type: " ++ lowerStr c.dataType)) := by
  refine ⟨?_, ?_, ?_⟩
  · rintro ⟨h0, h1, h2, h3, h4, h5, h6, h7, h8, h9, h10, h11⟩
    simp [Pg.mapColumn, Pg.mapType, h0, h1, h2, h3, h4, h5, h6, h7, h8, h9,
      h10, h11, Option.orElse]
  · rintro ⟨h1, h2, h3, h4, h5, h6, h7, h8⟩
    simp [MySql.mapMysqlColumn, MySql.mapType, h1, h2, h3, h4, h5, h6, h7, h8]
  · rintro ⟨h1, h2, h3, h4, h5, h6, h7, h8, h9⟩
    simp [Mssql.mapMssqlColumn, Mssql.mapType, h1, h2, h3, h4, h5, h6, h7, h8, h9]

/-- C1 witness: a concrete garbage-typed column falls back to `VARCHAR` with
the explanatory comment, for all three engines. -/
theorem mapper_totality_unknown_fallback_witness :
    ((Pg.mapColumn garbageColumn).type = "VARCHAR" ∧
     (Pg.mapColumn garbageColumn).comment =
       some ("Unmapped PostgreSQL type: " ++ garbageColumn.udtName ++
         " (" ++ garbageColumn.dataType ++ ")")) ∧
    ((MySql.mapMysqlColumn garbageColumn).type = "VARCHAR" ∧
     (MySql.mapMysqlColumn garbageColumn).comment =
       some ("Unmapped MySQL type: " ++ lowerStr garbageColumn.udtName ++
         " (" ++ lowerStr garbageColumn.dataType ++ ")")) ∧
    ((Mssql.mapMssqlColumn garbageColumn).type = "VARCHAR" ∧
     (Mssql.mapMssqlColumn garbageColumn).comment =
       some ("Unmapped MSSQL type: " ++ lowerStr garbageColumn.dataType)) :=
  ⟨(mapper_totality_unknown_fallback garbageColumn).1 (by decide),
   (mapper_totality_unknown_fallback garbageColumn).2.1 (by decide),
   (mapper_totality_unknown_fallback garbageColumn).2.2 (by decide)⟩

/-- C5: Numeric precision rules — on a numeric/decimal column, precision P
and scale S yield exactly `NUMBER(P,S)`; precision alone yields `NUMBER(P)`;
neither yields the engine default `NUMBER(38,0)` (PostgreSQL),
`NUMBER(10,0)` (MySQL) or `NUMBER(18,0)` (SQL Server). -/
theorem numeric_precision_rules (c : SourceColumn) (p s : Int) :
    (Pg.isSerialColumn c = false → c.udtName.data.head? ≠ some '_' →
      c.udtName = "numeric" ∨ c.dataType = "numeric" →
      (c.numericPrecision = some p → c.numericScale = some s →
        (Pg.mapColumn c).type = "NUMBER(" ++ toString p ++ "," ++ toString s ++ ")") ∧
      (c.numericPrecision = some p → c.numericScale = none →
        (Pg.mapColumn c).type = "NUMBER(" ++ toString p ++ ")") ∧
      (c.numericPrecision = none → (Pg.mapColumn c).type = "NUMBER(38,0)")) ∧
    (lowerStr c.dataType = "decimal" ∨ lowerStr c.dataType = "numeric" →
      (c.numericPrecision = some p → c.numericScale = some s →
        (MySql.mapMysqlColumn c).type =
          "NUMBER(" ++ toString p ++ "," ++ toString s ++ ")") ∧
      (c.numericPrecision = some p → c.numericScale = none →
        (MySql.mapMysqlColumn c).type = "NUMBER(" ++ toString p ++ ")") ∧
      (c.numericPrecision = none → (MySql.mapMysqlColumn c).type = "NUMBER(10,0)")) ∧
    (lowerStr c.dataType = "decimal" ∨ lowerStr c.dataType = "numeric" →
      (c.numericPrecision = some p → c.numericScale = some s →
        (Mssql.mapMssqlColumn c).type =
          "NUMBER(" ++ toString p ++ "," ++ toString s ++ ")") ∧
      (c.numericPrecision = some p → c.numericScale = none →
        (Mssql.mapMssqlColumn c).type = "NUMBER(" ++ toString p ++ ")") ∧
      (c.numericPrecision = none → (Mssql.mapMssqlColumn c).type = "NUMBER(18,0)")) := by
  refine ⟨?_, ?_, ?_⟩
  · intro hser hhd hu
    refine ⟨fun hp hs => ?_, fun hp hs => ?_, fun hp => ?_⟩
    · rcases hu with h | h <;>
        simp [Pg.mapColumn, Pg.mapType, hser, hhd, h, hp, hs]
    · rcases hu with h | h <;>
        simp [Pg.mapColumn, Pg.mapType, hser, hhd, h, hp, hs]
    · rcases hu with h | h <;>
        simp [Pg.mapColumn, Pg.mapType, hser, hhd, h, hp]
  · intro hdt
    refine ⟨fun hp hs => ?_, fun hp hs => ?_, fun hp => ?_⟩
    · rcases hdt with h | h <;> simp [MySql.mapMysqlColumn, MySql.mapType, h, hp, hs]
    · rcases hdt with h | h <;> simp [MySql.mapMysqlColumn, MySql.mapType, h, hp, hs]
    · rcases hdt with h | h <;> simp [MySql.mapMysqlColumn, MySql.mapType, h, hp]
  · intro hdt
    refine ⟨fun hp hs => ?_, fun hp hs => ?_, fun hp => ?_⟩
    · rcases hdt with h | h <;> simp [Mssql.mapMssqlColumn, Mssql.mapType, h, hp, hs]
    · rcases hdt with h | h <;> simp [Mssql.mapMssqlColumn, Mssql.mapType, h, hp, hs]
    · rcases hdt with h | h <;> simp [Mssql.mapMssqlColumn, Mssql.mapType, h, hp]

/-- C5 witness: the numeric rules evaluated at concrete columns — a
non-identity PostgreSQL numeric column carrying an ordinary default with
precision 10/scale 2 gives `NUMBER(10,2)`, precision 10 alone gives
`NUMBER(10)`, and an undeclared numeric gives each engine's default pair. -/
theorem numeric_precision_rules_witness :
    (Pg.mapColumn { baseColumn with
      dataType := "numeric", udtName := "numeric",
      columnDefault := some "0",
      numericPrecision := some 10, numericScale := some 2 }).type = "NUMBER(10,2)" ∧
    (MySql.mapMysqlColumn { baseColumn with
      dataType := "decimal", udtName := "decimal(10,0)",
      numericPrecision := some 10, numericScale := none }).type = "NUMBER(10)" ∧
    (Mssql.mapMssqlColumn { baseColumn with
      dataType := "decimal", udtName := "decimal",
      numericPrecision := none, numericScale := none }).type = "NUMBER(18,0)" := by
  refine ⟨?_, ?_, ?_⟩
  · have h := ((numeric_precision_rules { baseColumn with
      dataType := "numeric", udtName := "numeric",
      columnDefault := some "0",
      numericPrecision := some 10, numericScale := some 2 } 10 2).1
        (by decide) (by decide) (Or.inl rfl)).1 rfl rfl
    simpa using h
  · have h := ((numeric_precision_rules { baseColumn with
      dataType := "decimal", udtName := "decimal(10,0)",
      numericPrecision := some 10, numericScale := none } 10 0).2.1
        (by decide)).2.1 rfl rfl
    simpa using h
  · exact ((numeric_precision_rules { baseColumn with
      dataType := "decimal", udtName := "decimal",
      numericPrecision := none, numericScale := none } 0 0).2.2
        (by decide)).2.2 rfl

/-- C7: MySQL tinyint boolean heuristic — a `tinyint` column maps to
`BOOLEAN` exactly when its full column-type text (lowercased `udtName`) is
literally `tinyint(1)`, or structurally when precision is 3, scale is 0 and
no character length is declared; every other `tinyint` maps to `SMALLINT`. -/
theorem mysql_tinyint_boolean_heuristic (c : SourceColumn)
    (h : c.dataType = "tinyint") :
    ((MySql.mapMysqlColumn c).type = "BOOLEAN" ↔
      (lowerStr c.udtName = "tinyint(1)" ∨
       (c.numericPrecision = some 3 ∧ c.numericScale = some 0 ∧
        c.characterMaximumLength = none))) ∧
    (¬(lowerStr c.udtName = "tinyint(1)" ∨
       (c.numericPrecision = some 3 ∧ c.numericScale = some 0 ∧
        c.characterMaximumLength = none)) →
      (MySql.mapMysqlColumn c).type = "SMALLINT") := by
  have hl : lowerStr c.dataType = "tinyint" := by rw [h]; decide
  have hiff : MySql.isTinyint1 c = true ↔
      (lowerStr c.udtName = "tinyint(1)" ∨
       (c.numericPrecision = some 3 ∧ c.numericScale = some 0 ∧
        c.characterMaximumLength = none)) := by
    simp [MySql.isTinyint1, h, and_assoc]
  by_cases hb : MySql.isTinyint1 c = true
  · constructor
    · simp [MySql.mapMysqlColumn, MySql.mapType, hl, hb, hiff.mp hb]
    · intro hcon
      exact absurd (hiff.mp hb) hcon
  · have hb2 : MySql.isTinyint1 c = false := by
      revert hb
      cases MySql.isTinyint1 c <;> simp
    constructor
    · simp only [MySql.mapMysqlColumn, MySql.mapType, hl]
      rw [← hiff]
      simp [hb2]
    · intro _
      simp [MySql.mapMysqlColumn, MySql.mapType, hl, hb2]

/-- C7 witness: `tinyint(1)` maps to `BOOLEAN`, `tinyint(4)` to
`SMALLINT`. -/
theorem mysql_tinyint_boolean_heuristic_witness :
    (MySql.mapMysqlColumn { baseColumn with
      dataType := "tinyint", udtName := "tinyint(1)" }).type = "BOOLEAN" ∧
    (MySql.mapMysqlColumn { baseColumn with
      dataType := "tinyint", udtName := "tinyint(4)" }).type = "SMALLINT" :=
  ⟨(mysql_tinyint_boolean_heuristic { baseColumn with
      dataType := "tinyint", udtName := "tinyint(1)" } rfl).1.mpr
        (Or.inl (by decide)),
   (mysql_tinyint_boolean_heuristic { baseColumn with
      dataType := "tinyint", udtName := "tinyint(4)" } rfl).2 (by decide)⟩

/-- The sequential export loop produces exactly the per-table body results,
in input order. -/
theorem exportLoop_fst (body : TableRef → ExportResult) (total : Nat) :
    ∀ (ts : List TableRef) (i : Nat),
      (MySqlAdapter.exportLoop body total ts i).1 = ts.map body := by
  intro ts
  induction ts with
  | nil => intro i; rfl
  | cons t rest ih =>
    intro i
    simp [MySqlAdapter.exportLoop, ih (i + 1)]

/-- C3: Export batch-failure isolation — `exportTables` returns exactly one
`ExportResult` per input table, in order; a table whose export pipeline
raises yields an `"error"` entry with `rowCount = 0` and the captured
message; each table's entry depends only on that table's own outcome (so one
table's failure cannot abort or alter sibling exports), and the whole batch
is a total function (it never throws). The SQL Server adapter behaves the
same way: its result list always has one entry per table, and per-table
failures after a successful connect yield the same error entries. -/
theorem export_batch_failure_isolation (env env2 : MySqlAdapter.ExportEnv)
    (menv : MssqlAdapter.ExportEnv) (tables : List TableRef)
    (format outputDir : String) :
    ((MySqlAdapter.exportTables env tables format outputDir).1.length =
      tables.length) ∧
    (∀ (i : Nat) (t : TableRef), tables[i]? = some t →
      (MySqlAdapter.exportTables env tables format outputDir).1[i]? =
        some (MySqlAdapter.exportOne env format outputDir t)) ∧
    (∀ (i : Nat) (t : TableRef) (msg : String), tables[i]? = some t → env.run t = .error msg →
      (MySqlAdapter.exportTables env tables format outputDir).1[i]? =
        some ({ schemaName := t.schemaName, tableName := t.tableName
                status := "error", rowCount := 0, duration := env.failDuration t
                filePath := outputFileFor outputDir format t, fileSize := 0
                error := some msg } : ExportResult)) ∧
    (∀ (i : Nat) (t : TableRef), tables[i]? = some t → env.run t = env2.run t →
      env.failDuration t = env2.failDuration t →
      (MySqlAdapter.exportTables env tables format outputDir).1[i]? =
        (MySqlAdapter.exportTables env2 tables format outputDir).1[i]?) ∧
    ((MssqlAdapter.exportTables menv tables format outputDir).1.length =
      tables.length) ∧
    (∀ (i : Nat) (t : TableRef) (msg : String), menv.connectResult = .ok () → tables[i]? = some t →
      menv.run t = .error msg →
      (MssqlAdapter.exportTables menv tables format outputDir).1[i]? =
        some ({ schemaName := t.schemaName, tableName := t.tableName
                status := "error", rowCount := 0, duration := menv.failDuration t
                filePath := outputFileFor outputDir format t, fileSize := 0
                error := some msg } : ExportResult)) := by
  have hmy : (MySqlAdapter.exportTables env tables format outputDir).1 =
      tables.map (MySqlAdapter.exportOne env format outputDir) :=
    exportLoop_fst _ _ tables 0
  have hmy2 : (MySqlAdapter.exportTables env2 tables format outputDir).1 =
      tables.map (MySqlAdapter.exportOne env2 format outputDir) :=
    exportLoop_fst _ _ tables 0
  refine ⟨?_, ?_, ?_, ?_, ?_, ?_⟩
  · simp [hmy]
  · intro i t ht
    simp [hmy, List.getElem?_map, ht]
  · intro i t msg ht hrun
    simp [hmy, List.getElem?_map, ht, MySqlAdapter.exportOne, hrun]
  · intro i t ht hrun hdur
    simp [hmy, hmy2, List.getElem?_map, ht, MySqlAdapter.exportOne, hrun, hdur]
  · cases hc : menv.connectResult with
    | error msg => simp [MssqlAdapter.exportTables, hc]
    | ok u =>
      have : (MssqlAdapter.exportTables menv tables format outputDir).1 =
          tables.map (MssqlAdapter.exportOne menv format outputDir) := by
        simp [MssqlAdapter.exportTables, hc, exportLoop_fst]
      simp [this]
  · intro i t msg hc ht hrun
    have : (MssqlAdapter.exportTables menv tables format outputDir).1 =
        tables.map (MssqlAdapter.exportOne menv format outputDir) := by
      simp [MssqlAdapter.exportTables, hc, exportLoop_fst]
    simp [this, List.getElem?_map, ht, MssqlAdapter.exportOne, hrun]

/-- Concrete export environment for the C3 witness: the second of three
tables fails. -/
def c3Tables : List TableRef := [⟨"public", "a"⟩, ⟨"public", "b"⟩, ⟨"public", "c"⟩]

/-- Concrete MySQL export environment whose pipeline fails exactly on table
`public.b`. -/
def c3Env : MySqlAdapter.ExportEnv where
  run := fun t => if t.tableName = "b" then .error "boom" else .ok ⟨5, 10, 100⟩
  failDuration := fun _ => 3

/-- Concrete SQL Server export environment with a successful connect and a
failure on table `public.b`. -/
def c3MssqlEnv : MssqlAdapter.ExportEnv where
  connectResult := .ok ()
  run := fun t => if t.tableName = "b" then .error "boom" else .ok ⟨5, 10, 100⟩
  failDuration := fun _ => 3

/-- C3 witness: on a three-table batch whose second table fails, the result
list still has three entries and the second is the captured error entry. -/
theorem export_batch_failure_isolation_witness :
    (MySqlAdapter.exportTables c3Env c3Tables "csv" "/out").1.length = 3 ∧
    (MySqlAdapter.exportTables c3Env c3Tables "csv" "/out").1[1]? =
      some { schemaName := "public", tableName := "b", status := "error"
             rowCount := 0, duration := 3, filePath := "/out/public.b.csv"
             fileSize := 0, error := some "boom" } ∧
    (MssqlAdapter.exportTables c3MssqlEnv c3Tables "csv" "/out").1.length = 3 := by
  have h := export_batch_failure_isolation c3Env c3Env c3MssqlEnv c3Tables "csv" "/out"
  refine ⟨h.1, ?_, h.2.2.2.2.1⟩
  have h3 := h.2.2.1 1 ⟨"public", "b"⟩ "boom" rfl rfl
  simpa [outputFileFor, joinPath, displayName] using h3

/-- C10: when `MssqlAdapter.exportTables` cannot establish its dedicated
export connection, it does not throw: it returns exactly one entry per
requested table — each with status `"error"`, `rowCount` 0, `duration` 0,
`fileSize` 0, the computed per-table output file path and the connection
error's message — and `onProgress` is never invoked. -/
theorem mssql_export_connect_failure (env : MssqlAdapter.ExportEnv)
    (tables : List TableRef) (format outputDir msg : String)
    (h : env.connectResult = .error msg) :
    (MssqlAdapter.exportTables env tables format outputDir).2 = [] ∧
    (MssqlAdapter.exportTables env tables format outputDir).1.length =
      tables.length ∧
    (∀ (i : Nat) (t : TableRef), tables[i]? = some t →
      (MssqlAdapter.exportTables env tables format outputDir).1[i]? =
        some ({ schemaName := t.schemaName, tableName := t.tableName
                status := "error", rowCount := 0, duration := 0
                filePath := outputFileFor outputDir format t, fileSize := 0
                error := some msg } : ExportResult)) := by
  refine ⟨?_, ?_, ?_⟩
  · simp [MssqlAdapter.exportTables, h]
  · simp [MssqlAdapter.exportTables, h]
  · intro i t ht
    simp [MssqlAdapter.exportTables, h, List.getElem?_map, ht]

/-- Concrete environment for the C10 witness: the export connect fails. -/
def c10Env : MssqlAdapter.ExportEnv where
  connectResult := .error "login failed"
  run := fun _ => .ok ⟨1, 1, 1⟩
  failDuration := fun _ => 9

/-- C10 witness: with a failing connect, a two-table request yields no
progress events and two identical error entries with the connect message. -/
theorem mssql_export_connect_failure_witness :
    (MssqlAdapter.exportTables c10Env
      [⟨"dbo", "a"⟩, ⟨"dbo", "b"⟩] "csv" "/out").2 = [] ∧
    (MssqlAdapter.exportTables c10Env
      [⟨"dbo", "a"⟩, ⟨"dbo", "b"⟩] "csv" "/out").1.length = 2 ∧
    (∀ (i : Nat) (t : TableRef),
      ([⟨"dbo", "a"⟩, ⟨"dbo", "b"⟩] : List TableRef)[i]? = some t →
      (MssqlAdapter.exportTables c10Env
        [⟨"dbo", "a"⟩, ⟨"dbo", "b"⟩] "csv" "/out").1[i]? =
        some ({ schemaName := t.schemaName, tableName := t.tableName
                status := "error", rowCount := 0, duration := 0
                filePath := outputFileFor "/out" "csv" t, fileSize := 0
                error := some "login failed" } : ExportResult)) :=
  mssql_export_connect_failure c10Env [⟨"dbo", "a"⟩, ⟨"dbo", "b"⟩]
    "csv" "/out" "login failed" rfl

/-- C9 counterexample: the claim says a `connect` on one adapter instance
leaves a distinct instance's stored connection unchanged; but the stored
connection lives in a module-level slot shared by all instances, so a
`connect` through instance 0 changes what instance 1 observes. -/
theorem adapter_connection_shared_state_counterexample :
    (⟨0⟩ : AdapterInstance) ≠ (⟨1⟩ : AdapterInstance) ∧
    storedConnection ⟨1⟩ (adapterConnect ⟨0⟩ initialConnState 7) ≠
      storedConnection ⟨1⟩ initialConnState := by
  decide

/-- C9 (amended): the connection (MySQL) / pool (SQL Server) is module-level
shared mutable state, not per-instance state — after any instance's
`connect` stores a handle, every instance of that engine's adapter module
observes that same handle; after any instance's `disconnect`, every instance
observes no connection; and at any time all instances observe the same
stored connection. -/
theorem adapter_connection_module_state (a b : AdapterInstance)
    (s : ModuleConnState) (newConn : Nat) :
    storedConnection b (adapterConnect a s newConn) = some newConn ∧
    storedConnection b (adapterDisconnect a s) = none ∧
    storedConnection a s = storedConnection b s := by
  refine ⟨rfl, ?_, rfl⟩
  cases h : s.connection <;> simp [adapterDisconnect, storedConnection, h]

/-- A MySQL varchar column reported with the `-1` "unbounded" sentinel. -/
def mysqlVarcharNeg1 : SourceColumn :=
  { baseColumn with
    dataType := "varchar", udtName := "varchar(-1)",
    characterMaximumLength := some (-1) }

/-- C4 counterexample: the claim quantifies over every engine, but the MySQL
mapper does not special-case the `-1` sentinel — `-1` is truthy, so a
`varchar` column of length `-1` maps to the negatively parameterized
`VARCHAR(-1)` rather than the unparameterized `VARCHAR`. -/
theorem unbounded_sentinel_counterexample :
    (MySql.mapMysqlColumn mysqlVarcharNeg1).type = "VARCHAR(-1)" ∧
    (MySql.mapMysqlColumn mysqlVarcharNeg1).type ≠ "VARCHAR" := by
  decide

/-- C4 (amended): only the SQL Server mapper recognizes the `-1`
unbounded-length sentinel — a varchar/nvarchar column of length `-1` maps to
the unparameterized `VARCHAR` and a binary/varbinary column of length `-1`
to the unparameterized `BINARY`; the PostgreSQL and MySQL mappers treat `-1`
as an ordinary truthy length and emit `VARCHAR(-1)`. -/
theorem unbounded_sentinel_mssql (c : SourceColumn)
    (hlen : c.characterMaximumLength = some (-1)) :
    ((lowerStr c.dataType = "varchar" ∨ lowerStr c.dataType = "nvarchar") →
      (Mssql.mapMssqlColumn c).type = "VARCHAR") ∧
    ((lowerStr c.dataType = "binary" ∨ lowerStr c.dataType = "varbinary") →
      (Mssql.mapMssqlColumn c).type = "BINARY") ∧
    (lowerStr c.dataType = "varchar" →
      (MySql.mapMysqlColumn c).type = "VARCHAR(-1)") ∧
    (c.udtName = "varchar" → c.dataType ≠ "numeric" →
      Pg.isSerialColumn c = false →
      (Pg.mapColumn c).type = "VARCHAR(-1)") := by
  refine ⟨?_, ?_, ?_, ?_⟩
  · rintro (h | h) <;> simp [Mssql.mapMssqlColumn, Mssql.mapType, h, hlen]
  · rintro (h | h) <;> simp [Mssql.mapMssqlColumn, Mssql.mapType, h, hlen]
  · intro h
    have : (toString (-1 : Int)) = "-1" := by decide
    simp [MySql.mapMysqlColumn, MySql.mapType, h, hlen, this]
  · intro h hdt hser
    have hne : c.udtName ≠ "numeric" := by rw [h]; decide
    have hhd : c.udtName.data.head? ≠ some '_' := by rw [h]; decide
    have : (toString (-1 : Int)) = "-1" := by decide
    simp [Pg.mapColumn, Pg.mapType, h, hdt, hser, hlen, hne, hhd, this]

/-- C4 witness: concrete evaluations of the amended rules — SQL Server
`nvarchar(max)` and `varbinary(max)` collapse to the unparameterized types,
while a MySQL `varchar` of length `-1` keeps the negative parameter. -/
theorem unbounded_sentinel_mssql_witness :
    (Mssql.mapMssqlColumn { baseColumn with
      dataType := "nvarchar", characterMaximumLength := some (-1) }).type =
      "VARCHAR" ∧
    (Mssql.mapMssqlColumn { baseColumn with
      dataType := "varbinary", characterMaximumLength := some (-1) }).type =
      "BINARY" ∧
    (MySql.mapMysqlColumn mysqlVarcharNeg1).type = "VARCHAR(-1)" :=
  ⟨(unbounded_sentinel_mssql { baseColumn with
      dataType := "nvarchar", characterMaximumLength := some (-1) } rfl).1
        (Or.inr (by decide)),
   (unbounded_sentinel_mssql { baseColumn with
      dataType := "varbinary", characterMaximumLength := some (-1) } rfl).2.1
        (Or.inr (by decide)),
   (unbounded_sentinel_mssql mysqlVarcharNeg1 rfl).2.2.1 (by decide)⟩

/-- A MySQL varbinary column with a declared finite length. -/
def mysqlVarbinary10 : SourceColumn :=
  { baseColumn with
    dataType := "varbinary", udtName := "varbinary(10)",
    characterMaximumLength := some 10 }

/-- C8 counterexample: the claim quantifies over every engine, but the MySQL
mapper sends `binary`/`varbinary` through its literal lookup table, so a
`varbinary` column with declared length 10 maps to the unparameterized
`BINARY`, not to `BINARY(10)`. -/
theorem binary_length_param_counterexample :
    (MySql.mapMysqlColumn mysqlVarbinary10).type = "BINARY" ∧
    (MySql.mapMysqlColumn mysqlVarbinary10).type ≠ "BINARY(10)" := by
  decide

/-- C8 (amended): only the SQL Server mapper length-parameterizes the binary
family — `binary`/`varbinary` with a declared finite length L maps to
`BINARY(L)` (like the character family); the MySQL mapper collapses
`binary`/`varbinary` as well as the LOB variants
`tinyblob`/`blob`/`mediumblob`/`longblob` to the unparameterized `BINARY`
regardless of length. -/
theorem binary_family_mapping (c : SourceColumn) (L : Int) :
    ((lowerStr c.dataType = "binary" ∨ lowerStr c.dataType = "varbinary") →
      c.characterMaximumLength = some L → L ≠ -1 → L ≠ 0 →
      (Mssql.mapMssqlColumn c).type = "BINARY(" ++ toString L ++ ")") ∧
    (∀ s, s ∈ (["tinyblob", "blob", "mediumblob", "longblob", "binary",
        "varbinary"] : List String) →
      lowerStr c.dataType = s → (MySql.mapMysqlColumn c).type = "BINARY") := by
  constructor
  · rintro (h | h) hlen h1 h0 <;>
      simp [Mssql.mapMssqlColumn, Mssql.mapType, h, hlen, h1, h0]
  · intro s hs h
    fin_cases hs <;> simp [MySql.mapMysqlColumn, MySql.mapType, h, MySql.SIMPLE_TYPE_MAP]

/-- C8 witness: SQL Server `binary(16)` maps to `BINARY(16)`; MySQL `blob`
and `varbinary` map to the unparameterized `BINARY`. -/
theorem binary_family_mapping_witness :
    (Mssql.mapMssqlColumn { baseColumn with
      dataType := "binary", characterMaximumLength := some 16 }).type =
      "BINARY(16)" ∧
    (MySql.mapMysqlColumn { baseColumn with
      dataType := "blob", udtName := "blob" }).type = "BINARY" := by
  constructor
  · have h := (binary_family_mapping { baseColumn with
      dataType := "binary", characterMaximumLength := some 16 } 16).1
        (Or.inl (by decide)) rfl (by decide) (by decide)
    simpa using h
  · exact (binary_family_mapping { baseColumn with
      dataType := "blob", udtName := "blob" } 0).2 "blob" (by decide) (by decide)

/-- Parenthesis peeling is the identity on a string that does not start with
an opening parenthesis. -/
theorem peelParens_eq_self (l : List Char) (h : l.head? ≠ some '(') :
    Mssql.peelParens l = l := by
  rw [Mssql.peelParens]
  exact dif_neg fun hc => h hc.1

/-- Peeling removes exactly one enclosing parenthesis layer at a time. -/
theorem peelParens_wrap (l : List Char) :
    Mssql.peelParens ('(' :: (l ++ [')'])) = Mssql.peelParens l := by
  have h1 : ('(' :: (l ++ [')'])).getLast? = some ')' := by
    rw [← List.cons_append]
    exact List.getLast?_concat _
  conv_lhs => rw [Mssql.peelParens]
  rw [dif_pos ⟨rfl, h1⟩]
  congr 1
  simp [List.dropLast_concat]

/-- Wrapping a SQL Server default in one more parenthesis layer does not
change its translation. -/
theorem mssql_mapDefault_paren (d : String) :
    Mssql.mapDefault ("(" ++ d ++ ")") = Mssql.mapDefault d := by
  have hd : ("(" ++ d ++ ")").data = '(' :: (d.data ++ [')']) := rfl
  simp only [Mssql.mapDefault, hd, peelParens_wrap]

/-- A string whose lowercasing is one of the SQL Server current-timestamp
function names cannot start with an opening parenthesis. -/
theorem head_ne_paren_of_lower (d : String) (w : String)
    (h : lowerStr d = w) (hw : w.data.head? ≠ some '(') :
    d.data.head? ≠ some '(' := by
  intro hc
  apply hw
  rw [← h]
  simp [lowerStr, List.head?_map, hc]

/-- The five SQL Server current-timestamp defaults are translated to the
canonical `CURRENT_TIMESTAMP()`, case-insensitively. -/
theorem mssql_mapDefault_timestamp (d : String)
    (h : lowerStr d ∈ (["getdate()", "sysdatetime()", "getutcdate()",
        "sysutcdatetime()", "sysdatetimeoffset()"] : List String)) :
    Mssql.mapDefault d = some "CURRENT_TIMESTAMP()" := by
  simp only [List.mem_cons, List.mem_singleton, List.not_mem_nil, or_false] at h
  have hh : d.data.head? ≠ some '(' := by
    rcases h with h | h | h | h | h <;>
      exact head_ne_paren_of_lower d _ h (by decide)
  have hp : Mssql.peelParens d.data = d.data := peelParens_eq_self _ hh
  rcases h with h | h | h | h | h <;> simp [Mssql.mapDefault, hp, h]

/-- A SQL Server default that carries no enclosing parentheses and matches
none of the rewritten function names passes through verbatim. -/
theorem mssql_mapDefault_verbatim (d : String)
    (hh : d.data.head? ≠ some '(')
    (hts : lowerStr d ∉ (["getdate()", "sysdatetime()", "getutcdate()",
        "sysutcdatetime()", "sysdatetimeoffset()", "newid()"] : List String))
    (hne : d ≠ "") :
    Mssql.mapDefault d = some d := by
  have hp : Mssql.peelParens d.data = d.data := peelParens_eq_self _ hh
  simp only [List.mem_cons, List.mem_singleton, List.not_mem_nil, or_false,
    not_or] at hts
  obtain ⟨h1, h2, h3, h4, h5, h6⟩ := hts
  simp [Mssql.mapDefault, hp, h1, h2, h3, h4, h5, h6, hne]

/-- Cast stripping is the identity on a colon-free string. -/
theorem stripCasts_no_colon (l : List Char) (h : ∀ ch ∈ l, ch ≠ ':') :
    Pg.stripCasts l = l := by
  induction l with
  | nil => rw [Pg.stripCasts.eq_def]
  | cons c rest ih =>
    have hc : c ≠ ':' := h c (List.mem_cons_self c rest)
    rw [Pg.stripCasts.eq_def]
    split
    · rename_i c2 r2 heq
      rw [List.cons.injEq] at heq
      exact absurd heq.1 hc
    · rename_i c3 rest3 hcond heq
      injection heq with h1 h2
      subst h1
      subst h2
      rw [ih fun ch hm => h ch (List.mem_cons_of_mem c hm)]
    · rename_i heq
      simp at heq

/-- Cast stripping removes a whole `::`-cast suffix: a colon-free prefix
followed by `::` and a nonempty run of cast characters strips to the bare
prefix. -/
theorem stripCasts_cast_suffix (v t : List Char)
    (hv : ∀ ch ∈ v, ch ≠ ':')
    (ht : ∀ ch ∈ t, Pg.isCastChar ch = true) (ht0 : t ≠ []) :
    Pg.stripCasts (v ++ ':' :: ':' :: t) = v := by
  induction v with
  | nil =>
    cases t with
    | nil => exact absurd rfl ht0
    | cons c2 r2 =>
      rw [List.nil_append, Pg.stripCasts.eq_def]
      have hdw : (c2 :: r2).dropWhile Pg.isCastChar = [] :=
        List.dropWhile_eq_nil_iff.mpr fun x hx => ht x hx
      simp only [if_pos (ht c2 (List.mem_cons_self _ _)), Pg.stripTail, hdw]
      rw [Pg.stripCasts.eq_def]
  | cons a v2 ih =>
    have ha : a ≠ ':' := hv a (List.mem_cons_self a v2)
    rw [List.cons_append, Pg.stripCasts.eq_def]
    split
    · rename_i c2 r2 heq
      rw [List.cons.injEq] at heq
      exact absurd heq.1 ha
    · rename_i c3 rest3 hcond heq
      injection heq with h1 h2
      subst h1
      rw [← h2]
      rw [ih fun ch hm => hv ch (List.mem_cons_of_mem a hm)]
    · rename_i heq
      simp at heq

/-- A string of the form `v ++ "::" ++ t` always contains a colon, so it
differs from any colon-free string. -/
theorem append_colons_ne (v t w : String) (hw : ':' ∉ w.data) :
    v ++ "::" ++ t ≠ w := by
  intro he
  apply hw
  rw [← he]
  have hd : (v ++ "::" ++ t).data = v.data ++ [':', ':'] ++ t.data := rfl
  rw [hd]
  simp

/-- A PostgreSQL default made of a colon-free, trimmed, nonempty value
followed by a `::`-cast suffix translates to the bare value (the cast is
stripped). -/
theorem pg_mapDefault_cast_suffix (v t u : String)
    (hv : ∀ ch ∈ v.data, ch ≠ ':')
    (ht : ∀ ch ∈ t.data, Pg.isCastChar ch = true) (ht0 : t.data ≠ [])
    (hnv : hasSubstring (lowerStr (v ++ "::" ++ t)).data "nextval(".data = false)
    (htrim : jsTrim v = v) (hne : v ≠ "") :
    Pg.mapDefault (v ++ "::" ++ t) u = some v := by
  have h1 : v ++ "::" ++ t ≠ "true" := append_colons_ne v t _ (by decide)
  have h2 : v ++ "::" ++ t ≠ "false" := append_colons_ne v t _ (by decide)
  have h3 : v ++ "::" ++ t ≠ "now()" := append_colons_ne v t _ (by decide)
  have h4 : v ++ "::" ++ t ≠ "CURRENT_TIMESTAMP" := append_colons_ne v t _ (by decide)
  have h5 : v ++ "::" ++ t ≠ "CURRENT_DATE" := append_colons_ne v t _ (by decide)
  have hdata : (v ++ "::" ++ t).data = v.data ++ ':' :: ':' :: t.data := by
    have : (v ++ "::" ++ t).data = v.data ++ [':', ':'] ++ t.data := rfl
    rw [this, List.append_assoc]
    rfl
  have hstrip : Pg.stripCasts (v ++ "::" ++ t).data = v.data := by
    rw [hdata]
    exact stripCasts_cast_suffix v.data t.data hv ht ht0
  simp only [Pg.mapDefault, hnv, h1, h2, h3, h4, h5, hstrip, htrim, hne,
    Bool.false_eq_true, if_false, or_self, ite_false]

/-- A PostgreSQL default with no colons, already trimmed, nonempty and
matching none of the rewritten literals passes through verbatim. -/
theorem pg_mapDefault_verbatim (d u : String)
    (hv : ∀ ch ∈ d.data, ch ≠ ':')
    (hnv : hasSubstring (lowerStr d).data "nextval(".data = false)
    (htrim : jsTrim d = d) (hne : d ≠ "")
    (hspec : d ∉ (["true", "false", "now()", "CURRENT_TIMESTAMP",
        "CURRENT_DATE"] : List String)) :
    Pg.mapDefault d u = some d := by
  simp only [List.mem_cons, List.mem_singleton, List.not_mem_nil, or_false,
    not_or] at hspec
  obtain ⟨h1, h2, h3, h4, h5⟩ := hspec
  have hstrip : Pg.stripCasts d.data = d.data := stripCasts_no_colon d.data hv
  simp only [Pg.mapDefault, hnv, h1, h2, h3, h4, h5, hstrip, htrim,
    Bool.false_eq_true, if_false, or_self, ite_false]
  rw [if_neg hne]

/-- C6: Default-value translation rewrites — current-timestamp defaults
collapse to the canonical `CURRENT_TIMESTAMP()` (PostgreSQL `now()` /
`CURRENT_TIMESTAMP`; SQL Server `getdate()`, `sysdatetime()`,
`getutcdate()`, `sysutcdatetime()`, `sysdatetimeoffset()`,
case-insensitively); PostgreSQL boolean literal defaults uppercase to
`TRUE`/`FALSE`; PostgreSQL `::`-cast suffixes are stripped; SQL Server
enclosing parenthesis layers are peeled; unrecognized non-empty defaults
pass through verbatim; and, through `mapColumn`, these rewrites apply to
non-identity columns. -/
theorem default_value_translation (c : SourceColumn) (v t d u : String) :
    (Pg.mapDefault "now()" u = some "CURRENT_TIMESTAMP()" ∧
     Pg.mapDefault "CURRENT_TIMESTAMP" u = some "CURRENT_TIMESTAMP()") ∧
    (Pg.mapDefault "true" u = some "TRUE" ∧
     Pg.mapDefault "false" u = some "FALSE") ∧
    (Mssql.mapDefault ("(" ++ d ++ ")") = Mssql.mapDefault d) ∧
    (lowerStr d ∈ (["getdate()", "sysdatetime()", "getutcdate()",
        "sysutcdatetime()", "sysdatetimeoffset()"] : List String) →
      Mssql.mapDefault d = some "CURRENT_TIMESTAMP()") ∧
    ((∀ ch ∈ v.data, ch ≠ ':') → (∀ ch ∈ t.data, Pg.isCastChar ch = true) →
      t.data ≠ [] →
      hasSubstring (lowerStr (v ++ "::" ++ t)).data "nextval(".data = false →
      jsTrim v = v → v ≠ "" →
      Pg.mapDefault (v ++ "::" ++ t) u = some v) ∧
    ((∀ ch ∈ d.data, ch ≠ ':') →
      hasSubstring (lowerStr d).data "nextval(".data = false →
      jsTrim d = d → d ≠ "" →
      d ∉ (["true", "false", "now()", "CURRENT_TIMESTAMP",
          "CURRENT_DATE"] : List String) →
      Pg.mapDefault d u = some d) ∧
    (d.data.head? ≠ some '(' →
      lowerStr d ∉ (["getdate()", "sysdatetime()", "getutcdate()",
          "sysutcdatetime()", "sysdatetimeoffset()", "newid()"] : List String) →
      d ≠ "" →
      Mssql.mapDefault d = some d) ∧
    (c.isIdentity = false → c.columnDefault = some "now()" →
      (Pg.mapColumn c).defaultValue = some "CURRENT_TIMESTAMP()") ∧
    (c.isIdentity = false → c.columnDefault = some "(getdate())" →
      (Mssql.mapMssqlColumn c).defaultValue = some "CURRENT_TIMESTAMP()") ∧
    (c.isIdentity = false →
      c.columnDefault = some "'active'::character varying" →
      (Pg.mapColumn c).defaultValue = some "'active'") := by
  refine ⟨⟨?_, ?_⟩, ⟨?_, ?_⟩, mssql_mapDefault_paren d,
    mssql_mapDefault_timestamp d, pg_mapDefault_cast_suffix v t u,
    pg_mapDefault_verbatim d u, mssql_mapDefault_verbatim d, ?_, ?_, ?_⟩
  · simp [Pg.mapDefault, hasSubstring, lowerStr, List.isPrefixOf]
  · simp [Pg.mapDefault, hasSubstring, lowerStr, List.isPrefixOf]
  · simp [Pg.mapDefault, hasSubstring, lowerStr, upperStr, List.isPrefixOf]
  · simp [Pg.mapDefault, hasSubstring, lowerStr, upperStr, List.isPrefixOf]
  · intro hid hdef
    have hser : Pg.isSerialColumn c = false := by
      simp [Pg.isSerialColumn, hid, hdef, hasSubstring, lowerStr, List.isPrefixOf]
    simp [Pg.mapColumn, hser, hdef, Pg.mapDefault, hasSubstring, lowerStr,
      List.isPrefixOf]
  · intro hid hdef
    have hpar : Mssql.mapDefault "(getdate())" = some "CURRENT_TIMESTAMP()" := by
      rw [show ("(getdate())" : String) = "(" ++ "getdate()" ++ ")" from rfl,
        mssql_mapDefault_paren]
      exact mssql_mapDefault_timestamp _ (by decide)
    simp [Mssql.mapMssqlColumn, hid, hdef, hpar]
  · intro hid hdef
    have hser : Pg.isSerialColumn c = false := by
      simp [Pg.isSerialColumn, hid, hdef, hasSubstring, lowerStr, List.isPrefixOf]
    have hval : Pg.mapDefault "'active'::character varying" c.udtName =
        some "'active'" := by
      rw [show ("'active'::character varying" : String) =
        "'active'" ++ "::" ++ "character varying" from rfl]
      exact pg_mapDefault_cast_suffix _ _ _ (by decide) (by decide) (by decide)
        (by decide) (by decide) (by decide)
    simp [Pg.mapColumn, hser, hdef, hval]

/-- C6 witness: each rewrite evaluated on the spec's concrete examples —
`now()` and `(getdate())` normalize to `CURRENT_TIMESTAMP()`, `true`
uppercases, the cast suffix of `'active'::character varying` is stripped on
a non-identity varchar column, and the unrecognized default `42` passes
through verbatim for both engines. -/
theorem default_value_translation_witness :
    Pg.mapDefault "now()" "timestamptz" = some "CURRENT_TIMESTAMP()" ∧
    Pg.mapDefault "true" "bool" = some "TRUE" ∧
    Mssql.mapDefault "(getdate())" = some "CURRENT_TIMESTAMP()" ∧
    Mssql.mapDefault "GETDATE()" = some "CURRENT_TIMESTAMP()" ∧
    Pg.mapDefault "'active'::character varying" "varchar" = some "'active'" ∧
    Pg.mapDefault "42" "int4" = some "42" ∧
    Mssql.mapDefault "42" = some "42" ∧
    (Pg.mapColumn { baseColumn with
      dataType := "character varying", udtName := "varchar",
      columnDefault := some "'active'::character varying" }).defaultValue =
      some "'active'" := by
  have h := fun d => default_value_translation baseColumn "'active'"
    "character varying" d "timestamptz"
  refine ⟨(h "x").1.1, ?_, ?_, ?_, ?_, ?_, ?_, ?_⟩
  · exact ((default_value_translation baseColumn "x" "y" "z" "bool").2.1).1
  · rw [show ("(getdate())" : String) = "(" ++ "getdate()" ++ ")" from rfl]
    rw [(h "getdate()").2.2.1]
    exact (h "getdate()").2.2.2.1 (by decide)
  · exact (h "GETDATE()").2.2.2.1 (by decide)
  · rw [show ("'active'::character varying" : String) =
      "'active'" ++ "::" ++ "character varying" from rfl]
    exact (h "x").2.2.2.2.1 (by decide) (by decide) (by decide) (by decide)
      (by decide) (by decide)
  · exact (h "42").2.2.2.2.2.1 (by decide) (by decide) (by decide) (by decide)
      (by decide)
  · exact (h "42").2.2.2.2.2.2.1 (by decide) (by decide) (by decide)
  · exact (default_value_translation { baseColumn with
      dataType := "character varying", udtName := "varchar",
      columnDefault := some "'active'::character varying" }
        "x" "y" "z" "u").2.2.2.2.2.2.2.2.2 rfl rfl
